import Mathlib

/-!
Shallow embedding of the recommendation pipeline of `src/recommender.py`
(zibochat/ai-system) together with proofs about the claims of the spec.

Strings are modelled as Lean `String`s (lists of unicode code points).
Python's regex character classes `\s` and `\w` are unicode-aware; the
embedding fixes them to the characters that actually occur in this code
base: ASCII whitespace for `\s`, and ASCII letters/digits/underscore plus
the Arabic/Persian letter block used by the Persian keywords for `\w`.
Python's `str.lower` is modelled as ASCII lowercasing (Persian has no
case).  All definitions are executable.
-/

/-- ASCII lowercase of a single character (Python `str.lower` restricted to
the characters this program manipulates; Persian letters have no case). -/
def lowerCh (c : Char) : Char :=
  if 0x41 ≤ c.toNat ∧ c.toNat ≤ 0x5A then Char.ofNat (c.toNat + 32) else c

/-- Python regex `\s` (whitespace class), on the characters modelled here. -/
def isSpaceCh (c : Char) : Bool :=
  decide (c.toNat = 0x20 ∨ c.toNat = 0x9 ∨ c.toNat = 0xA ∨ c.toNat = 0xD ∨
    c.toNat = 0xB ∨ c.toNat = 0xC)

/-- Python regex `\w` (word character): ASCII digits, ASCII letters,
underscore, and the Arabic/Persian letters used by the program's keyword
lists (U+0621..U+064A plus the Persian additions پ چ ژ ک گ ی). -/
def isWordCh (c : Char) : Bool :=
  decide ((0x30 ≤ c.toNat ∧ c.toNat ≤ 0x39) ∨ (0x41 ≤ c.toNat ∧ c.toNat ≤ 0x5A) ∨
    (0x61 ≤ c.toNat ∧ c.toNat ≤ 0x7A) ∨ c.toNat = 0x5F ∨
    (0x621 ≤ c.toNat ∧ c.toNat ≤ 0x64A) ∨ c.toNat = 0x67E ∨ c.toNat = 0x686 ∨
    c.toNat = 0x698 ∨ c.toNat = 0x6A9 ∨ c.toNat = 0x6AF ∨ c.toNat = 0x6CC)

/-- The class `[\s‌‏﻿⁦⁧⁨⁩\W_]` of
`_strip_redundant_greeting`'s first `re.sub` (leading space/punctuation
removal). -/
def isStripClassCh (c : Char) : Bool :=
  isSpaceCh c ||
  decide (c.toNat = 0x200C ∨ c.toNat = 0x200F ∨ c.toNat = 0xFEFF ∨
    (0x2066 ≤ c.toNat ∧ c.toNat ≤ 0x2069)) ||
  !(isWordCh c) || decide (c.toNat = 0x5F)

/-- The class `[\s\W_]` closing each greeting pattern
(`([\s\W_]+)?`, the greedy optional run after the greeting token). -/
def isRunClassCh (c : Char) : Bool :=
  isSpaceCh c || !(isWordCh c) || decide (c.toNat = 0x5F)

/-- The character set of the final `out.lstrip(' ،:!-—.\n\r\t')`. -/
def isTrailPunct (c : Char) : Bool :=
  decide (c.toNat = 0x20 ∨ c.toNat = 0x60C ∨ c.toNat = 0x3A ∨ c.toNat = 0x21 ∨
    c.toNat = 0x2D ∨ c.toNat = 0x2014 ∨ c.toNat = 0x2E ∨ c.toNat = 0xA ∨
    c.toNat = 0xD ∨ c.toNat = 0x9)

/-- Boolean prefix test on character lists. -/
def isPrefixCh : List Char → List Char → Bool
  | [], _ => true
  | _ :: _, [] => false
  | a :: as, b :: bs => a == b && isPrefixCh as bs

/-- Boolean substring test (Python `needle in hay`), on character lists. -/
def infixCh (n : List Char) : List Char → Bool
  | [] => isPrefixCh n []
  | c :: t => isPrefixCh n (c :: t) || infixCh n t

/-- Python `needle in hay` on strings. -/
def strContains (hay needle : String) : Bool := infixCh needle.data hay.data

/-- Python `s.startswith(pre)`. -/
def sStartsWithB (s pre : String) : Bool := isPrefixCh pre.data s.data

/-- Python `str.lower`, restricted to ASCII case (see the header note). -/
def lowerStr (s : String) : String := ⟨s.data.map lowerCh⟩

/-- Python `a or b` for strings (empty string is falsy). -/
def pyOr (a b : String) : String := if a = "" then b else a

/-- The optional tail `(\s*و\s*وقت\s*بخیر)?` of the `سلام` pattern of
`_strip_redundant_greeting`: `none` when the group does not match. -/
def matchSalamExt (l : List Char) : Option (List Char) :=
  let r1 := l.dropWhile isSpaceCh
  if isPrefixCh ("و".data) r1 then
    let r2 := (r1.drop 1).dropWhile isSpaceCh
    if isPrefixCh ("وقت".data) r2 then
      let r3 := (r2.drop 3).dropWhile isSpaceCh
      if isPrefixCh ("بخیر".data) r3 then some (r3.drop 4) else none
    else none
  else none

/-- Pattern `^(سلام(\s*و\s*وقت\s*بخیر)?)([\s\W_]+)?`: the remainder after
removing the match, or `none` when the pattern does not match. -/
def matchPat1 (l : List Char) : Option (List Char) :=
  if isPrefixCh ("سلام".data) l then
    let rest := l.drop 4
    let rest := (matchSalamExt rest).getD rest
    some (rest.dropWhile isRunClassCh)
  else none

/-- Pattern `^(درود)([\s\W_]+)?`. -/
def matchPat2 (l : List Char) : Option (List Char) :=
  if isPrefixCh ("درود".data) l then some ((l.drop 4).dropWhile isRunClassCh)
  else none

/-- Pattern `^(hi|hello|hey)([\s\W_]+)?` with `re.IGNORECASE`. -/
def matchPat3 (l : List Char) : Option (List Char) :=
  if isPrefixCh ("hi".data) (l.map lowerCh) then
    some ((l.drop 2).dropWhile isRunClassCh)
  else if isPrefixCh ("hello".data) (l.map lowerCh) then
    some ((l.drop 5).dropWhile isRunClassCh)
  else if isPrefixCh ("hey".data) (l.map lowerCh) then
    some ((l.drop 3).dropWhile isRunClassCh)
  else none

/-- True when one of the three greeting patterns matches at the start of
the list (equivalently: the text begins with a recognized greeting token;
the `سلام` pattern matches exactly when `سلام` is a prefix, since both of
its trailing groups are optional). -/
def hasGreetingMatch (l : List Char) : Bool :=
  (matchPat1 l).isSome || (matchPat2 l).isSome || (matchPat3 l).isSome

/-- Apply the first matching greeting pattern (the source's loop breaks
after the first pattern that changes the text, and a pattern changes the
text exactly when it matches). -/
def stripPats (t2 : List Char) : List Char :=
  match matchPat1 t2 with
  | some r => r
  | none =>
    match matchPat2 t2 with
    | some r => r
    | none =>
      match matchPat3 t2 with
      | some r => r
      | none => t2

/-- The body of `_strip_redundant_greeting` on the character list:
`lstrip`, the leading punctuation `re.sub`, the first matching greeting
pattern, and the final `lstrip(' ،:!-—.\n\r\t')`. -/
def stripCore (l : List Char) : List Char :=
  (stripPats ((l.dropWhile isSpaceCh).dropWhile isStripClassCh)).dropWhile
    isTrailPunct

/-- `_strip_redundant_greeting` (src/recommender.py lines 181-201): remove a
leading greeting and surrounding punctuation; `return out if out else text`
restores the original text when stripping would leave nothing.  (The
`isinstance` guard is vacuous here since the input is typed as a string.) -/
def _strip_redundant_greeting (text : String) : String :=
  if (stripCore text.data).isEmpty then text else ⟨stripCore text.data⟩

/-- The claim's notion "begins with one of the recognized greeting phrases
(سلام, درود, hi, hello, hey, case-insensitive)", written from the claim's
words for comparison with the code's behaviour. -/
def beginsWithRecognizedGreeting (s : String) : Bool :=
  isPrefixCh ("سلام".data) s.data || isPrefixCh ("درود".data) s.data ||
  isPrefixCh ("hi".data) (s.data.map lowerCh) ||
  isPrefixCh ("hello".data) (s.data.map lowerCh) ||
  isPrefixCh ("hey".data) (s.data.map lowerCh)

/-! ## Intent classification (`_is_greeting`, `_is_product_intent`) -/

/-- The class `[\s،,.!?:;~\-–—]` collapsed by `_is_greeting`'s
normalization `re.sub`. -/
def isGreetClassCh (c : Char) : Bool :=
  isSpaceCh c ||
  decide (c.toNat = 0x60C ∨ c.toNat = 0x2C ∨ c.toNat = 0x2E ∨ c.toNat = 0x21 ∨
    c.toNat = 0x3F ∨ c.toNat = 0x3A ∨ c.toNat = 0x3B ∨ c.toNat = 0x7E ∨
    c.toNat = 0x2D ∨ c.toNat = 0x2013 ∨ c.toNat = 0x2014)

/-- Emit the accumulated (reversed) token, if non-empty. -/
def splitFlush (acc : List Char) : List String :=
  if acc.isEmpty then [] else [⟨acc.reverse⟩]

/-- Splitting helper for `splitOnPred`. -/
def splitAux (p : Char → Bool) : List Char → List Char → List String
  | [], acc => splitFlush acc
  | c :: t, acc =>
    if p c then splitFlush acc ++ splitAux p t []
    else splitAux p t (c :: acc)

/-- Split a character list at the characters satisfying `p`, dropping empty
pieces (the combined effect of `re.sub(class+, " ", t).strip().split()`). -/
def splitOnPred (p : Char → Bool) (l : List Char) : List String := splitAux p l []

/-- The token list `_is_greeting` computes from a message: lowercase, then
split at whitespace/punctuation. -/
def normGreetTokens (text : String) : List String :=
  splitOnPred isGreetClassCh (lowerStr text).data

/-- The fixed greeting-word set of `_is_greeting`. -/
def greetings : List String :=
  ["سلام", "درود", "وقت بخیر", "صبح بخیر", "شب بخیر", "hi", "hello", "hey",
   "salam", "سلاممم"]

/-- `_is_greeting` (src/recommender.py lines 281-287). -/
def _is_greeting (text : String) : Bool :=
  let tokens := normGreetTokens text
  decide (0 < tokens.length) && decide (tokens.length ≤ 2) &&
    tokens.all (fun tok => decide (tok ∈ greetings))

/-- The product-intent vocabulary of `_is_product_intent`. -/
def product_words : List String :=
  ["محصول", "پیشنهاد", "توصیه", "بخرم", "چی خوبه", "recommend", "suggest",
   "سرم", "کرم", "ضد آفتاب", "شوینده", "تونر", "mask", "ماسک", "moisturizer"]

/-- `_is_product_intent` (src/recommender.py lines 370-376). -/
def _is_product_intent (text : String) : Bool :=
  product_words.any (fun w => strContains (lowerStr text) w)

/-! ## Data model -/

/-- A catalog product, with the dict fields `recommender.py` reads.  Fields
the underlying dict may lack are modelled as `""` (Python's falsy default
under the `or`-chains the code uses).  `available` carries the tri-state
result `_is_available(p)` stored at `p["_available"]` (its dynamic
inventory-key probing is external to every claim); `hasComments` is the
`p["_has_comments"]` label, overwritten by `labelComments` below. -/
structure Product where
  id : Nat
  fullName : String
  full_name : String
  nameFa : String
  nameEn : String
  name : String
  description : String
  category : String
  typ : String
  tags : List String
  available : Option Bool
  hasComments : Bool
deriving Repr, DecidableEq

/-- A product comment (`product_id` is a string in the data set). -/
structure Comment where
  product_id : String
  description : String
deriving Repr, DecidableEq

/-- One entry of the `summaries` list: id, display name and
`summary_source`; the free-text `summary` field never reaches the
returned log and no claim mentions it, so it is not carried here. -/
structure CandSummary where
  id : Nat
  name : String
  source : String
deriving Repr, DecidableEq

/-- The `log` dict returned by `recommend`.  The three branches build
dicts with different key sets, so the optional keys are `Option`s with
`none` meaning "key absent": the greeting/conversation logs have no
`llm_unavailable` key, and the product log has no `intent` key. -/
structure RecLog where
  intent : Option String
  priority_used : Option Nat
  recommended_product_ids : List Nat
  recommended_products : List CandSummary
  llm_unavailable : Option Bool
  user_message : String
  profile : String
deriving Repr, DecidableEq

/-- `p["_has_comments"] = any(c["product_id"] == str(p["id"]) for c in comments)`
(src/recommender.py line 467). -/
def labelComments (products : List Product) (comments : List Comment) :
    List Product :=
  products.map (fun p =>
    { p with hasComments := comments.any (fun c => c.product_id == toString p.id) })

/-! ## Candidate retrieval (`_detect_intent`, `_matches_intent`, fallbacks) -/

/-- The hydration vocabulary of `_detect_intent`. -/
def moist_words : List String :=
  ["مرطوب", "مرطوب کننده", "مرطوب‌کننده", "آبرسان", "moistur", "hydrating",
   "moisturizer", "hydration"]

/-- `_detect_intent` (src/recommender.py lines 471-476). -/
def _detect_intent (text : String) : Option String :=
  if moist_words.any (fun w => strContains (lowerStr text) w) then
    some "moisturizer"
  else none

/-- The positive (hydration) keyword list of `_matches_intent`'s
moisturizer branch. -/
def moist_positive : List String :=
  ["مرطوب", "مرطوب کننده", "مرطوب‌کننده", "آبرسان", "moistur", "hydrating",
   "moisturizer", "hydration"]

/-- The product-form keyword list of `_matches_intent`'s moisturizer branch. -/
def moist_form : List String :=
  ["کرم", "cream", "ژل", "gel", "مرطوب کننده", "moisturizer"]

/-- The hard-exclusion list of `_matches_intent`'s moisturizer branch
(other product forms plus body-only items). -/
def moist_negative : List String :=
  ["اسکراب", "scrub", "ماسک", "mask", "شوینده", "cleanser", "فوم", "تونر",
   "toner", "سرم", "serum", "صابون", "soap", "بدن", "body", "لوسیون بدن",
   "body lotion"]

/-- The generic overlap vocabulary of `_matches_intent`'s default branch. -/
def generic_words : List String :=
  ["sunscreen", "ضد آفتاب", "cleanser", "شوینده", "toner", "سرم", "serum",
   "mask", "ماسک", "کرم", "cream", "ژل", "gel", "آبرسان", "مرطوب کننده"]

/-- The lowercased `full_meta` text `_matches_intent` builds from a
product: names, description, category/type and tags. -/
def fullMeta (prod : Product) : String :=
  let nm := lowerStr (pyOr prod.fullName prod.full_name ++ " " ++ prod.nameFa ++
    " " ++ prod.nameEn ++ " " ++ prod.name)
  let dsc := lowerStr prod.description
  let cat := lowerStr (pyOr prod.category prod.typ ++ " " ++
    String.intercalate " " prod.tags)
  nm ++ " " ++ dsc ++ " " ++ cat

/-- `_matches_intent` (src/recommender.py lines 480-508). -/
def _matches_intent (prod : Product) (text : String) (intent : Option String) :
    Bool :=
  let fm := fullMeta prod
  let t := lowerStr text
  if intent = some "moisturizer" then
    if moist_negative.any (fun n => strContains fm n) then false
    else
      moist_positive.any (fun p => strContains t p) &&
      moist_positive.any (fun p => strContains fm p) &&
      moist_form.any (fun f => strContains fm f)
  else
    generic_words.any (fun k => strContains t k && strContains fm k)

/-- `_is_face` of the popularity fallback (src/recommender.py lines 556-558). -/
def _is_face (prod : Product) : Bool :=
  let text := lowerStr (pyOr prod.fullName prod.full_name ++ " " ++ prod.nameFa ++
    " " ++ prod.nameEn ++ " " ++ prod.description)
  (["صورت", "face", "facial", "کرم", "cream"].any (fun w => strContains text w)) &&
  !(["بدن", "body", "لوسیون بدن", "body lotion"].any (fun w => strContains text w))

/-- Number of comments attached to a product
(`pid_to_count.get(str(p.get('id')), 0)`). -/
def commentCount (comments : List Comment) (p : Product) : Nat :=
  (comments.filter (fun c => c.product_id == toString p.id)).length

/-- Insert an element into a list so that elements with strictly larger key
stay in front: one step of Python's stable descending `list.sort(key=...,
reverse=True)`. -/
def insertDescBy {α : Type} (key : α → Nat) (x : α) : List α → List α
  | [] => [x]
  | y :: ys => if key y ≤ key x then x :: y :: ys else y :: insertDescBy key x ys

/-- Stable descending sort by a numeric key: the semantics of Python's
`list.sort(key=..., reverse=True)` (equal keys keep their original order). -/
def insSortDescBy {α : Type} (key : α → Nat) : List α → List α
  | [] => []
  | x :: xs => insertDescBy key x (insSortDescBy key xs)

/-- The popularity/heuristic fallback (src/recommender.py lines 554-565). -/
def popularityFallback (products : List Product) (comments : List Comment)
    (max_count : Nat) : List Product :=
  let ranked := insSortDescBy (commentCount comments) products
  let face_ranked := ranked.filter _is_face
  if face_ranked ≠ [] then face_ranked.take max_count else ranked.take max_count

/-- The rule-based retrieval tier (src/recommender.py line 551). -/
def ruleBased (products : List Product) (user_message : String) : List Product :=
  products.filter (fun p => _matches_intent p user_message
    (_detect_intent user_message))

/-- Append-if-new accumulation of retrieved product ids (the dedup loop of
the semantic tier). -/
def dedupIds : List String → List String → List String
  | acc, [] => acc
  | acc, x :: xs => if x ∈ acc then dedupIds acc xs else dedupIds (acc ++ [x]) xs

/-! ## Completion tiers, logs and the orchestrator -/

/-- The fixed apology returned when every completion tier fails
(src/recommender.py line 709). -/
def apologyText : String :=
  "متأسفانه سرویس تولید پاسخ موقتاً در دسترس نیست. لطفاً چند لحظه بعد دوباره تلاش کنید."

/-- The prefix tested by `answer.startswith("متأسفانه سرویس")`. -/
def apologyPrefix : String := "متأسفانه سرویس"

/-- The external collaborators of one `recommend` call, as oracles: each
tier field is the outcome of that tier's single call in this turn
(`.error ()` = the call raised, `.ok s` = it returned text `s`, already
`.strip()`-ed by the caller; an empty/falsy result is `.ok ""`).
`retrieval` gives the per-hit product id (from metadata or the `ID:`
header parse); `indexText` is `_get_product_summary_from_index` (`none` =
no/empty index text).  `llmAgent` is `llm_agent is not None`, `hasBaseUrl`
is the truthiness of `BASE_URL` (`API_KEY` is always set, or the module
fails to import), `userId` is the truthiness of `user_id`, and `mem` is
`llm_agent.get_conversation_context`. -/
structure Env where
  llmAgent : Bool
  langchainAvailable : Bool
  hasBaseUrl : Bool
  userId : Bool
  tier1 : Except Unit String
  tier2 : Except Unit String
  tier3 : Except Unit String
  tier3b : Except Unit String
  mem : Except Unit String
  retrieval : Except Unit (List (Option String))
  products : List Product
  comments : List Comment
  indexText : Nat → Option String

/-- The semantic retrieval tier (src/recommender.py lines 511-547); any
exception inside its `try` leaves `intent_products` empty. -/
def semanticRetrieve (env : Env) (products : List Product) : List Product :=
  if env.llmAgent && env.langchainAvailable then
    match env.retrieval with
    | .error _ => []
    | .ok hits =>
      let pids := hits.filterMap (fun h =>
        match h with
        | some s => if s ≠ "" then some s else none
        | none => none)
      let product_ids := dedupIds [] pids
      if product_ids ≠ [] then
        products.filter (fun p => toString p.id ∈ product_ids)
      else []
  else []

/-- `_score` (src/recommender.py lines 573-579): availability score. -/
def _score (prod : Product) : Nat :=
  match prod.available with
  | some true => 2
  | none => 1
  | some false => 0

/-- The candidate ranker (src/recommender.py lines 567-594): bucket by
`_has_comments`, stable-sort each bucket descending by `_score`, choose
the priority tier, truncate to `max_count`. -/
def rankSelect (intent_products : List Product) (max_count : Nat) :
    List Product × Nat :=
  let prio1 := insSortDescBy _score (intent_products.filter (fun p => p.hasComments))
  let prio2 := insSortDescBy _score (intent_products.filter (fun p => !p.hasComments))
  if prio1 ≠ [] then (prio1.take max_count, 1)
  else if prio2 ≠ [] then (prio2.take max_count, 2)
  else ([], 3)

/-- The display name used in a summary entry
(`p.get('fullName') or ... or p.get('name') or ""`). -/
def displayNameFull (p : Product) : String :=
  pyOr (pyOr (pyOr (pyOr p.fullName p.full_name) p.nameFa) p.nameEn) p.name

/-- `summary_source` of one candidate (src/recommender.py line 600). -/
def summarySource (env : Env) (p : Product) : String :=
  match env.indexText p.id with
  | some _ => "faiss_index"
  | none => if p.hasComments then "comments" else "no_comments"

/-- The `summaries` list (src/recommender.py lines 597-610, restricted to
the fields that reach the returned log). -/
def productSummaries (env : Env) (cands : List Product) : List CandSummary :=
  cands.map (fun p =>
    { id := p.id, name := displayNameFull p, source := summarySource env p })

/-- `answer` is falsy (`None` or `""`). -/
def falsy : Option String → Bool
  | none => true
  | some s => decide (s = "")

/-- Tier 1 (`llm_agent.chat_with_context`) with its `try/except` that turns
an exception into `None`. -/
def tier1Answer (env : Env) : Option String :=
  if env.llmAgent then
    match env.tier1 with
    | .ok s => some s
    | .error _ => none
  else none

/-- Tiers 1-3 of the greeting branch (src/recommender.py lines 290-337):
the SDK call's exception handler issues the raw HTTP fallback when
endpoint credentials exist; every failure is caught. -/
def greetingCascade (env : Env) : Option String :=
  let a0 := tier1Answer env
  if falsy a0 then
    match env.tier2 with
    | .ok s => some s
    | .error _ =>
      if env.hasBaseUrl then
        match env.tier3 with
        | .ok s => some s
        | .error _ => a0
      else a0
  else a0

/-- The memory post-processing of the greeting and conversation branches
(strip when any recent context exists); exceptions reading the context are
caught and leave the answer unchanged. -/
def postGreetConv (env : Env) (answer : Option String) : Option String :=
  if env.llmAgent && env.userId then
    match env.mem with
    | .ok m => if m ≠ "" then answer.map _strip_redundant_greeting else answer
    | .error _ => answer
  else answer

/-- The memory post-processing of the product branch (strip only when the
recent context contains `سلام`). -/
def postProduct (env : Env) (answer : Option String) : Option String :=
  if env.llmAgent && env.userId then
    match env.mem with
    | .ok m =>
      if m ≠ "" && strContains (lowerStr m) "سلام" then
        answer.map _strip_redundant_greeting
      else answer
    | .error _ => answer
  else answer

/-- `llm_unavailable` (src/recommender.py line 719):
`bool(not answer or answer.startswith("متأسفانه سرویس"))`. -/
def llmFlag (answer : Option String) : Bool :=
  match answer with
  | none => true
  | some s => decide (s = "") || sStartsWithB s apologyPrefix

/-- The greeting branch's log dict (src/recommender.py lines 338-345):
`priority_used` is the literal `0` and there is no `llm_unavailable` key. -/
def greetingLog (user_message profile : String) : RecLog :=
  { intent := some "greeting", priority_used := some 0,
    recommended_product_ids := [], recommended_products := [],
    llm_unavailable := none, user_message := user_message, profile := profile }

/-- The conversation branch's log dict (src/recommender.py lines 415-422):
`priority_used` is `None` and there is no `llm_unavailable` key. -/
def conversationLog (user_message profile : String) : RecLog :=
  { intent := some "conversation", priority_used := none,
    recommended_product_ids := [], recommended_products := [],
    llm_unavailable := none, user_message := user_message, profile := profile }

/-- The product branch's log dict (src/recommender.py lines 713-720): no
`intent` key, and `llm_unavailable` computed from the answer. -/
def productLogMk (priority : Nat) (summaries : List CandSummary)
    (answer : Option String) (user_message profile : String) : RecLog :=
  { intent := none, priority_used := some priority,
    recommended_product_ids := summaries.map (fun s => s.id),
    recommended_products := summaries,
    llm_unavailable := some (llmFlag answer),
    user_message := user_message, profile := profile }

/-- The greeting branch of `recommend` (src/recommender.py lines 288-365);
nothing inside its `try` can raise once each tier call is caught. -/
def greetingRun (env : Env) (profile user_message : String) :
    Except Unit (Option String × RecLog) :=
  .ok (postGreetConv env (greetingCascade env), greetingLog user_message profile)

/-- The conversation branch (src/recommender.py lines 378-441).  The direct
completion call (line 406) is NOT wrapped in its own `try`, so its
exception reaches the outer handler, which logs and re-raises. -/
def conversationRun (env : Env) (profile user_message : String) :
    Except Unit (Option String × RecLog) :=
  let a0 := tier1Answer env
  let step : Except Unit (Option String) :=
    if falsy a0 then
      match env.tier2 with
      | .ok s => .ok (some s)
      | .error e => .error e
    else .ok a0
  match step with
  | .error e => .error e
  | .ok answer =>
    .ok (postGreetConv env answer, conversationLog user_message profile)

/-- The product branch's completion cascade (src/recommender.py lines
638-709): tiers 1-3 as in the greeting branch (the raw HTTP fallback
inside tier 2's exception handler), then the standalone raw HTTP fallback,
then the fixed apology. -/
def productCascade (env : Env) : Option String :=
  let a1 := greetingCascade env
  let a2 :=
    if falsy a1 && env.hasBaseUrl then
      match env.tier3b with
      | .ok s => some s
      | .error _ => a1
    else a1
  if falsy a2 then some apologyText else a2

/-- The product branch (src/recommender.py lines 443-740): label products,
run the retrieval chain, rank, summarize, call the tier cascade, build the
log (note: no `intent` key) and post-process.  Every external failure is
caught, so the branch always returns. -/
def productRun (env : Env) (profile user_message : String) (max_count : Nat) :
    Except Unit (Option String × RecLog) :=
  let products := labelComments env.products env.comments
  let ip0 := semanticRetrieve env products
  let ip1 := if ip0 = [] then ruleBased products user_message else ip0
  let ip2 := if ip1 = [] then popularityFallback products env.comments max_count
    else ip1
  let rs := rankSelect ip2 max_count
  .ok (postProduct env (productCascade env),
    productLogMk rs.2 (productSummaries env rs.1) (productCascade env)
      user_message profile)

/-- `recommend` (src/recommender.py line 279): greeting branch first; then
the source tests `if not _is_product_intent(...)` and converses; otherwise
it runs the product pipeline.  The profile is carried opaquely (it only
flows into prompts and the log). -/
def recommend (env : Env) (profile user_message : String) (max_count : Nat) :
    Except Unit (Option String × RecLog) :=
  if _is_greeting user_message then greetingRun env profile user_message
  else if _is_product_intent user_message then
    productRun env profile user_message max_count
  else conversationRun env profile user_message

/-- A completion tier failed or returned an empty result. -/
def tierFailed (r : Except Unit String) : Prop := r = .error () ∨ r = .ok ""

/-- All completion tiers of one call fail or return empty. -/
def allTiersFail (env : Env) : Prop :=
  tierFailed env.tier1 ∧ tierFailed env.tier2 ∧ tierFailed env.tier3 ∧
    tierFailed env.tier3b

/-- A base environment where every external collaborator fails: no
LangChain agent, no configured endpoint, every completion call raises,
empty catalog. -/
def env0 : Env :=
  { llmAgent := false, langchainAvailable := false, hasBaseUrl := false,
    userId := false, tier1 := .error (), tier2 := .error (),
    tier3 := .error (), tier3b := .error (), mem := .error (),
    retrieval := .error (), products := [], comments := [],
    indexText := fun _ => none }

/-- An environment whose direct completion call answers a greeting. -/
def envG : Env := { env0 with tier2 := .ok "چه کمکی از دستم برمیاد؟" }

/-- An environment where only the raw HTTP fallback succeeds, with a text
that happens to start with the apology prefix. -/
def envX : Env := { env0 with
  hasBaseUrl := true
  tier3 := .ok "متأسفانه سرویس پشتیبانی تعطیل است" }

/-- An environment where only the raw HTTP fallback succeeds, with an
ordinary text. -/
def envW : Env := { env0 with hasBaseUrl := true, tier3 := .ok "باشد" }

/-- A product labelled as having comments, for concrete ranker checks. -/
def pHasC : Product :=
  { id := 1, fullName := "", full_name := "", nameFa := "", nameEn := "",
    name := "", description := "", category := "", typ := "", tags := [],
    available := none, hasComments := true }

/-- A facial hydrating cream, for concrete matcher checks. -/
def pMoist : Product :=
  { id := 2, fullName := "کرم آبرسان صورت", full_name := "", nameFa := "",
    nameEn := "", name := "", description := "مناسب پوست خشک", category := "",
    typ := "", tags := [], available := none, hasComments := false }

/-- A body lotion carrying a hard-excluded term, for concrete matcher
checks. -/
def pBody : Product :=
  { id := 3, fullName := "لوسیون بدن آبرسان", full_name := "", nameFa := "",
    nameEn := "", name := "", description := "کرم آبرسان", category := "",
    typ := "", tags := [], available := none, hasComments := false }

/-! ## Helper lemmas: character classes and `dropWhile` -/

theorem word_not_space {c : Char} (h : isWordCh c = true) : isSpaceCh c = false := by
  simp only [isWordCh, decide_eq_true_eq] at h
  simp only [isSpaceCh, decide_eq_false_iff_not]
  omega

theorem word_not_strip {c : Char} (h : isWordCh c = true) (h2 : c.toNat ≠ 0x5F) :
    isStripClassCh c = false := by
  simp only [isWordCh, decide_eq_true_eq] at h
  simp only [isStripClassCh, isSpaceCh, isWordCh, Bool.or_eq_false_iff,
    Bool.not_eq_false', decide_eq_false_iff_not, decide_eq_true_eq]
  refine ⟨⟨⟨by omega, by omega⟩, by omega⟩, by omega⟩

theorem word_not_run {c : Char} (h : isWordCh c = true) (h2 : c.toNat ≠ 0x5F) :
    isRunClassCh c = false := by
  simp only [isWordCh, decide_eq_true_eq] at h
  simp only [isRunClassCh, isSpaceCh, isWordCh, Bool.or_eq_false_iff,
    Bool.not_eq_false', decide_eq_false_iff_not, decide_eq_true_eq]
  refine ⟨⟨by omega, by omega⟩, by omega⟩

theorem word_not_trail {c : Char} (h : isWordCh c = true) :
    isTrailPunct c = false := by
  simp only [isWordCh, decide_eq_true_eq] at h
  simp only [isTrailPunct, decide_eq_false_iff_not]
  omega

theorem not_strip_word {c : Char} (h : isStripClassCh c = false) :
    isWordCh c = true ∧ c.toNat ≠ 0x5F := by
  simp only [isStripClassCh, Bool.or_eq_false_iff, Bool.not_eq_false',
    decide_eq_false_iff_not] at h
  refine ⟨h.1.2, ?_⟩
  simpa using h.2

theorem not_run_word {c : Char} (h : isRunClassCh c = false) :
    isWordCh c = true ∧ c.toNat ≠ 0x5F := by
  simp only [isRunClassCh, Bool.or_eq_false_iff, Bool.not_eq_false',
    decide_eq_false_iff_not] at h
  refine ⟨h.1.2, ?_⟩
  simpa using h.2

theorem dropWhile_head_false (p : Char → Bool) (l : List Char) :
    l.dropWhile p = [] ∨
      ∃ c cs, l.dropWhile p = c :: cs ∧ p c = false := by
  induction l with
  | nil => exact Or.inl rfl
  | cons a t ih =>
    by_cases h : p a
    · simpa [List.dropWhile_cons, h] using ih
    · exact Or.inr ⟨a, t, by simp [List.dropWhile_cons, h],
        by simpa using h⟩

theorem dropWhile_cons_false {p : Char → Bool} {c : Char} (cs : List Char)
    (h : p c = false) : (c :: cs).dropWhile p = c :: cs := by
  simp [List.dropWhile_cons, h]

/-! ## Helper lemmas: the shape of `stripCore`'s output -/

theorem isSome_false_eq_none {α : Type} {o : Option α} (h : o.isSome = false) :
    o = none := by
  cases o with
  | none => rfl
  | some a => simp at h

theorem matchPat1_shape {l r : List Char} (h : matchPat1 l = some r) :
    ∃ m : List Char, r = m.dropWhile isRunClassCh := by
  unfold matchPat1 at h
  by_cases hp : isPrefixCh ("سلام".data) l = true
  · simp only [hp, if_true, Option.some.injEq] at h
    exact ⟨_, h.symm⟩
  · simp [hp] at h

theorem matchPat2_shape {l r : List Char} (h : matchPat2 l = some r) :
    ∃ m : List Char, r = m.dropWhile isRunClassCh := by
  unfold matchPat2 at h
  by_cases hp : isPrefixCh ("درود".data) l = true
  · simp only [hp, if_true, Option.some.injEq] at h
    exact ⟨_, h.symm⟩
  · simp [hp] at h

theorem matchPat3_shape {l r : List Char} (h : matchPat3 l = some r) :
    ∃ m : List Char, r = m.dropWhile isRunClassCh := by
  unfold matchPat3 at h
  by_cases h1 : isPrefixCh ("hi".data) (l.map lowerCh) = true
  · simp only [h1, if_true, Option.some.injEq] at h
    exact ⟨_, h.symm⟩
  · by_cases h2 : isPrefixCh ("hello".data) (l.map lowerCh) = true
    · simp [h1, h2] at h
      exact ⟨_, h.symm⟩
    · by_cases h3 : isPrefixCh ("hey".data) (l.map lowerCh) = true
      · simp [h1, h2, h3] at h
        exact ⟨_, h.symm⟩
      · simp [h1, h2, h3] at h

/-- After dropping a class that contains every non-word character and the
underscore, and then the trailing-punctuation set, the result is empty or
starts with a word character other than underscore. -/
theorem after_drop_shape (q : Char → Bool)
    (hq : ∀ c, q c = false → isWordCh c = true ∧ c.toNat ≠ 0x5F)
    (l : List Char) :
    (l.dropWhile q).dropWhile isTrailPunct = [] ∨
      ∃ c cs, (l.dropWhile q).dropWhile isTrailPunct = c :: cs ∧
        isWordCh c = true ∧ c.toNat ≠ 0x5F := by
  rcases dropWhile_head_false q l with h | ⟨c, cs, h, hc⟩
  · rw [h]
    exact Or.inl rfl
  · rw [h]
    obtain ⟨hw, hu⟩ := hq c hc
    rw [dropWhile_cons_false cs (word_not_trail hw)]
    exact Or.inr ⟨c, cs, rfl, hw, hu⟩

theorem stripPats_shape (t2 : List Char) :
    stripPats t2 = t2 ∨
      ∃ m : List Char, stripPats t2 = m.dropWhile isRunClassCh := by
  unfold stripPats
  rcases hm1 : matchPat1 t2 with _ | r1
  · rcases hm2 : matchPat2 t2 with _ | r2
    · rcases hm3 : matchPat3 t2 with _ | r3
      · exact Or.inl rfl
      · obtain ⟨m, hm⟩ := matchPat3_shape hm3
        exact Or.inr ⟨m, hm⟩
    · obtain ⟨m, hm⟩ := matchPat2_shape hm2
      exact Or.inr ⟨m, hm⟩
  · obtain ⟨m, hm⟩ := matchPat1_shape hm1
    exact Or.inr ⟨m, hm⟩

theorem stripCore_shape (l : List Char) :
    stripCore l = [] ∨
      ∃ c cs, stripCore l = c :: cs ∧ isWordCh c = true ∧ c.toNat ≠ 0x5F := by
  unfold stripCore
  rcases stripPats_shape ((l.dropWhile isSpaceCh).dropWhile isStripClassCh)
    with h | ⟨m, h⟩
  · rw [h]
    exact after_drop_shape isStripClassCh (fun c hc => not_strip_word hc)
      (l.dropWhile isSpaceCh)
  · rw [h]
    exact after_drop_shape isRunClassCh (fun c hc => not_run_word hc) m

/-- Each pattern matches exactly when its greeting token is a (for the
latin tokens: case-insensitive) prefix, so `hasGreetingMatch` agrees with
the claim-level `beginsWithRecognizedGreeting`. -/
theorem hasGreetingMatch_eq (l : List Char) :
    hasGreetingMatch l = beginsWithRecognizedGreeting ⟨l⟩ := by
  unfold hasGreetingMatch beginsWithRecognizedGreeting matchPat1 matchPat2 matchPat3
  by_cases h1 : isPrefixCh ("سلام".data) l = true <;>
    by_cases h2 : isPrefixCh ("درود".data) l = true <;>
      by_cases h3 : isPrefixCh ("hi".data) (l.map lowerCh) = true <;>
        by_cases h4 : isPrefixCh ("hello".data) (l.map lowerCh) = true <;>
          by_cases h5 : isPrefixCh ("hey".data) (l.map lowerCh) = true <;>
            simp [h1, h2, h3, h4, h5]

/-- A string whose head is a word character other than underscore and
which does not begin with a recognized greeting token is a fixed point of
`_strip_redundant_greeting`. -/
theorem strip_fixed_of_word_head (c : Char) (cs : List Char)
    (hw : isWordCh c = true) (hu : c.toNat ≠ 0x5F)
    (hg : hasGreetingMatch (c :: cs) = false) :
    _strip_redundant_greeting ⟨c :: cs⟩ = ⟨c :: cs⟩ := by
  simp only [hasGreetingMatch, Bool.or_eq_false_iff] at hg
  obtain ⟨⟨hg1, hg2⟩, hg3⟩ := hg
  have hn1 := isSome_false_eq_none hg1
  have hn2 := isSome_false_eq_none hg2
  have hn3 := isSome_false_eq_none hg3
  have hcore : stripCore (c :: cs) = c :: cs := by
    unfold stripCore
    rw [dropWhile_cons_false cs (word_not_space hw)]
    rw [dropWhile_cons_false cs (word_not_strip hw hu)]
    unfold stripPats
    rw [hn1, hn2, hn3]
    exact dropWhile_cons_false cs (word_not_trail hw)
  have hdata : (⟨c :: cs⟩ : String).data = c :: cs := rfl
  unfold _strip_redundant_greeting
  rw [hdata, hcore]
  simp

/-! ## Helper lemmas: the stable descending sort -/

theorem mem_insertDescBy {α : Type} (key : α → Nat) (x : α) (l : List α)
    (z : α) : z ∈ insertDescBy key x l ↔ z = x ∨ z ∈ l := by
  induction l with
  | nil => simp [insertDescBy]
  | cons y ys ih =>
    unfold insertDescBy
    by_cases h : key y ≤ key x
    · simp [h]
    · simp only [h, if_false, List.mem_cons, ih]
      tauto

theorem insertDescBy_ne_nil {α : Type} (key : α → Nat) (x : α) (l : List α) :
    insertDescBy key x l ≠ [] := by
  cases l with
  | nil => simp [insertDescBy]
  | cons y ys =>
    unfold insertDescBy
    by_cases h : key y ≤ key x <;> simp [h]

theorem insSortDescBy_eq_nil_iff {α : Type} (key : α → Nat) (l : List α) :
    insSortDescBy key l = [] ↔ l = [] := by
  cases l with
  | nil => simp [insSortDescBy]
  | cons x xs =>
    simp only [insSortDescBy]
    exact ⟨fun h => absurd h (insertDescBy_ne_nil key x _), fun h => by simp at h⟩

theorem mem_insSortDescBy {α : Type} (key : α → Nat) (l : List α) (z : α) :
    z ∈ insSortDescBy key l ↔ z ∈ l := by
  induction l with
  | nil => simp [insSortDescBy]
  | cons x xs ih =>
    simp only [insSortDescBy, mem_insertDescBy, ih, List.mem_cons]

theorem pairwise_insertDescBy {α : Type} (key : α → Nat) (x : α) (l : List α)
    (h : List.Pairwise (fun a b => key b ≤ key a) l) :
    List.Pairwise (fun a b => key b ≤ key a) (insertDescBy key x l) := by
  induction l with
  | nil => simp [insertDescBy]
  | cons y ys ih =>
    rw [List.pairwise_cons] at h
    obtain ⟨hy, hys⟩ := h
    unfold insertDescBy
    by_cases hk : key y ≤ key x
    · rw [if_pos hk, List.pairwise_cons]
      refine ⟨?_, by rw [List.pairwise_cons]; exact ⟨hy, hys⟩⟩
      intro z hz
      rcases List.mem_cons.mp hz with hz | hz
      · exact hz ▸ hk
      · exact le_trans (hy z hz) hk
    · rw [if_neg hk, List.pairwise_cons]
      refine ⟨?_, ih hys⟩
      intro z hz
      rcases (mem_insertDescBy key x ys z).mp hz with hz | hz
      · exact hz ▸ le_of_lt (lt_of_not_le hk)
      · exact hy z hz

theorem pairwise_insSortDescBy {α : Type} (key : α → Nat) (l : List α) :
    List.Pairwise (fun a b => key b ≤ key a) (insSortDescBy key l) := by
  induction l with
  | nil => simp [insSortDescBy]
  | cons x xs ih => exact pairwise_insertDescBy key x _ ih

theorem filter_insertDescBy {α : Type} (key : α → Nat) (x : α) (l : List α)
    (s : Nat) :
    (insertDescBy key x l).filter (fun y => key y == s) =
      if key x == s then x :: l.filter (fun y => key y == s)
      else l.filter (fun y => key y == s) := by
  induction l with
  | nil =>
    by_cases hx : key x == s <;> simp [insertDescBy, List.filter_cons, hx]
  | cons y ys ih =>
    unfold insertDescBy
    by_cases hk : key y ≤ key x
    · rw [if_pos hk]
      by_cases hx : (key x == s) = true <;>
        simp [List.filter_cons, hx]
    · rw [if_neg hk]
      have hlt : key x < key y := lt_of_not_le hk
      by_cases hx : (key x == s) = true
      · have hys : (key y == s) = false := by
          have hxs : key x = s := by simpa using hx
          simp only [beq_eq_false_iff_ne, ne_eq]
          omega
        simp [List.filter_cons, hys, ih, hx]
      · by_cases hy : (key y == s) = true <;>
          simp [List.filter_cons, hy, ih, hx]

theorem filter_insSortDescBy {α : Type} (key : α → Nat) (l : List α) (s : Nat) :
    (insSortDescBy key l).filter (fun y => key y == s) =
      l.filter (fun y => key y == s) := by
  induction l with
  | nil => simp [insSortDescBy]
  | cons x xs ih =>
    simp only [insSortDescBy]
    rw [filter_insertDescBy]
    by_cases hx : (key x == s) = true <;> simp [List.filter_cons, hx, ih]

/-! ## Helper lemmas: the ranker and the completion cascade -/

theorem rankSelect_priority (l : List Product) (m : Nat) :
    (rankSelect l m).2 = 1 ∨ (rankSelect l m).2 = 2 ∨ (rankSelect l m).2 = 3 := by
  unfold rankSelect
  by_cases h1 : insSortDescBy _score (l.filter (fun p => p.hasComments)) ≠ []
  · simp [h1]
  · by_cases h2 : insSortDescBy _score (l.filter (fun p => !p.hasComments)) ≠ [] <;>
      simp [h1, h2]

theorem falsy_none : falsy none = true := rfl

theorem falsy_some_empty : falsy (some "") = true := rfl

theorem falsy_some_ne {s : String} (h : s ≠ "") : falsy (some s) = false := by
  simp [falsy, h]

theorem falsy_tier1 (env : Env) (h : tierFailed env.tier1) :
    falsy (tier1Answer env) = true := by
  unfold tier1Answer
  cases hA : env.llmAgent
  · simp [falsy]
  · rcases h with h | h <;> rw [h] <;> simp [falsy]

theorem greetingCascade_falsy (env : Env) (h1 : tierFailed env.tier1)
    (h2 : tierFailed env.tier2) (h3 : tierFailed env.tier3) :
    falsy (greetingCascade env) = true := by
  have ht := falsy_tier1 env h1
  rcases h2 with h2 | h2 <;> rcases h3 with h3 | h3 <;>
    cases hB : env.hasBaseUrl <;>
      simp [greetingCascade, ht, h2, h3, hB, falsy_some_empty]

theorem productCascade_fail (env : Env) (h : allTiersFail env) :
    productCascade env = some apologyText := by
  obtain ⟨h1, h2, h3, h4⟩ := h
  have hg := greetingCascade_falsy env h1 h2 h3
  rcases h4 with h4 | h4 <;> cases hB : env.hasBaseUrl <;>
    simp [productCascade, hg, h4, hB, falsy_some_empty]

theorem productCascade_tier3 (env : Env) (s : String) (h1 : tierFailed env.tier1)
    (h2 : env.tier2 = .error ()) (hB : env.hasBaseUrl = true)
    (h3 : env.tier3 = .ok s) (hs : s ≠ "") :
    productCascade env = some s := by
  have ht := falsy_tier1 env h1
  have ha1 : greetingCascade env = some s := by
    simp [greetingCascade, ht, h2, hB, h3]
  simp [productCascade, ha1, falsy_some_ne hs]

theorem strip_apology : _strip_redundant_greeting apologyText = apologyText := by
  decide

theorem strip_empty : _strip_redundant_greeting "" = "" := by decide

theorem postProduct_fixed (env : Env) (s : String)
    (hs : _strip_redundant_greeting s = s) :
    postProduct env (some s) = some s := by
  unfold postProduct
  cases hA : env.llmAgent && env.userId
  · rfl
  · cases hm : env.mem with
    | error e => rfl
    | ok m =>
      by_cases hc : (m ≠ "" && strContains (lowerStr m) "سلام") = true <;>
        simp [hc, hs]

theorem postGreetConv_falsy (env : Env) (a : Option String)
    (h : falsy a = true) : falsy (postGreetConv env a) = true := by
  unfold postGreetConv
  have ha : a = none ∨ a = some "" := by
    cases a with
    | none => exact Or.inl rfl
    | some s =>
      simp only [falsy, decide_eq_true_eq] at h
      exact Or.inr (by rw [h])
  cases hA : env.llmAgent && env.userId
  · exact h
  · cases hm : env.mem with
    | error e => exact h
    | ok m =>
      by_cases hc : m = ""
      · simpa [hc] using h
      · rcases ha with ha | ha <;> rw [ha] <;>
          simp [hc, falsy, strip_empty]
/-! ## Further helper lemmas for the claim theorems -/

theorem llmFlag_apology : llmFlag (some apologyText) = true := by decide

theorem llmFlag_of_ok {s : String} (h1 : s ≠ "")
    (h2 : sStartsWithB s apologyPrefix = false) : llmFlag (some s) = false := by
  simp [llmFlag, h1, h2]

/-! ## The claims -/

/-- C3 counterexample: `_strip_redundant_greeting` is not idempotent — a
second application of the stripper removes a second greeting token. -/
theorem strip_not_idempotent :
    _strip_redundant_greeting (_strip_redundant_greeting "hi hi there") ≠
      _strip_redundant_greeting "hi hi there" := by decide

/-- C3 (amended): the greeting stripper is idempotent on every string
whose stripped form does not itself begin with a recognized greeting
token; in general a second application can strip a second greeting. -/
theorem strip_idempotent_unless (x : String)
    (h : beginsWithRecognizedGreeting (_strip_redundant_greeting x) = false) :
    _strip_redundant_greeting (_strip_redundant_greeting x) =
      _strip_redundant_greeting x := by
  rcases stripCore_shape x.data with h0 | ⟨c, cs, h0, hw, hu⟩
  · have hx : _strip_redundant_greeting x = x := by
      unfold _strip_redundant_greeting
      rw [h0]
      simp
    rw [hx]
    exact hx
  · have hx : _strip_redundant_greeting x = ⟨c :: cs⟩ := by
      unfold _strip_redundant_greeting
      rw [h0]
      simp
    rw [hx] at h ⊢
    exact strip_fixed_of_word_head c cs hw hu
      (by rw [hasGreetingMatch_eq]; exact h)

/-- C3 witness: a concrete instance of the amended idempotence. -/
theorem strip_idempotent_unless_witness :
    beginsWithRecognizedGreeting (_strip_redundant_greeting "hi there!") = false
    ∧ _strip_redundant_greeting (_strip_redundant_greeting "hi there!") =
        _strip_redundant_greeting "hi there!" :=
  ⟨by decide, strip_idempotent_unless "hi there!" (by decide)⟩

/-- C4 counterexample: a string that does not begin with any recognized
greeting phrase is still altered (its leading whitespace/punctuation is
removed). -/
theorem strip_alters_nongreeting :
    beginsWithRecognizedGreeting " x" = false ∧
      _strip_redundant_greeting " x" ≠ " x" := by decide

/-- C4 (amended): every string whose first character is a letter or digit
(so the leading whitespace/punctuation removal is a no-op) and which does
not begin with a recognized greeting token is returned unchanged. -/
theorem strip_unchanged_of_word_start (c : Char) (cs : List Char)
    (hw : isWordCh c = true) (hu : c.toNat ≠ 0x5F)
    (hg : beginsWithRecognizedGreeting ⟨c :: cs⟩ = false) :
    _strip_redundant_greeting ⟨c :: cs⟩ = ⟨c :: cs⟩ :=
  strip_fixed_of_word_head c cs hw hu (by rw [hasGreetingMatch_eq]; exact hg)

/-- C4 witness: a concrete non-greeting string is returned unchanged. -/
theorem strip_unchanged_of_word_start_witness :
    _strip_redundant_greeting "nice" = "nice" :=
  strip_unchanged_of_word_start 'n' ['i', 'c', 'e'] (by decide) (by decide)
    (by decide)

/-- C10 (confirmed): on a non-empty input the stripper never returns the
empty string — when stripping would leave nothing it returns the original
text. -/
theorem strip_nonempty (x : String) (h : x ≠ "") :
    _strip_redundant_greeting x ≠ "" := by
  unfold _strip_redundant_greeting
  by_cases h0 : (stripCore x.data).isEmpty = true
  · rw [if_pos h0]
    exact h
  · rw [if_neg h0]
    intro hc
    have hdat : stripCore x.data = [] := congrArg String.data hc
    rw [hdat] at h0
    simp at h0

/-- C10 witness: a concrete greeting-only input comes back unchanged, not
empty. -/
theorem strip_nonempty_witness : _strip_redundant_greeting "hi!" ≠ "" :=
  strip_nonempty "hi!" (by decide)

/-- C7 (confirmed): the ranker's per-bucket sort orders candidates
descending by availability score and is stable — the subsequence of
candidates at each score value is exactly the retrieval-order
subsequence. -/
theorem score_sort_stable (l : List Product) :
    List.Pairwise (fun a b => _score b ≤ _score a) (insSortDescBy _score l)
    ∧ ∀ s : Nat, (insSortDescBy _score l).filter (fun p => _score p == s) =
        l.filter (fun p => _score p == s) :=
  ⟨pairwise_insSortDescBy _score l, fun s => filter_insSortDescBy _score l s⟩

/-- C5 (confirmed): the selection invariant of the ranker — priority 1
selects only comment-bearing candidates, priority 2 only comment-free ones
and is only chosen when no retrieved candidate has comments, and priority
3 selects nothing. -/
theorem rankSelect_invariant (l : List Product) (m : Nat) :
    ((rankSelect l m).2 = 1 → ∀ p ∈ (rankSelect l m).1, p.hasComments = true)
    ∧ ((rankSelect l m).2 = 2 →
        (∀ p ∈ (rankSelect l m).1, p.hasComments = false) ∧
          ∀ p ∈ l, p.hasComments = false)
    ∧ ((rankSelect l m).2 = 3 → (rankSelect l m).1 = []) := by
  unfold rankSelect
  by_cases h1 : insSortDescBy _score (l.filter fun p => p.hasComments) ≠ []
  · rw [if_pos h1]
    refine ⟨?_, ?_, ?_⟩
    · intro _ p hp
      have hp2 : p ∈ insSortDescBy _score (l.filter fun p => p.hasComments) :=
        List.take_subset m _ hp
      have hp3 := (mem_insSortDescBy _ _ _).mp hp2
      exact (List.mem_filter.mp hp3).2
    · intro h
      simp at h
    · intro h
      simp at h
  · have h1n : insSortDescBy _score (l.filter fun p => p.hasComments) = [] :=
      not_not.mp h1
    have hfilter : l.filter (fun p => p.hasComments) = [] :=
      (insSortDescBy_eq_nil_iff _ _).mp h1n
    by_cases h2 : insSortDescBy _score (l.filter fun p => !p.hasComments) ≠ []
    · rw [if_neg h1, if_pos h2]
      refine ⟨?_, ?_, ?_⟩
      · intro h
        simp at h
      · intro _
        constructor
        · intro p hp
          have hp2 : p ∈ insSortDescBy _score (l.filter fun p => !p.hasComments) :=
            List.take_subset m _ hp
          have hp3 := (mem_insSortDescBy _ _ _).mp hp2
          have hp4 := (List.mem_filter.mp hp3).2
          simpa using hp4
        · intro p hp
          have := List.filter_eq_nil_iff.mp hfilter p hp
          simpa using this
      · intro h
        simp at h
    · rw [if_neg h1, if_neg h2]
      exact ⟨fun h => by simp at h, fun h => by simp at h, fun _ => rfl⟩

/-- C5 witness: a concrete priority-1 selection and a concrete empty
selection. -/
theorem rankSelect_invariant_witness :
    pHasC.hasComments = true ∧ (rankSelect ([] : List Product) 3).1 = [] :=
  ⟨(rankSelect_invariant [pHasC] 5).1 (by decide) pHasC (by decide),
   (rankSelect_invariant [] 3).2.2 (by decide)⟩

/-- C9 (confirmed): under the moisturizer sub-intent the rule-based
matcher accepts only products whose text/metadata carries both a hydration
term and a product-form term while the message carries a hydration term,
and it rejects every product whose text/metadata carries a negative or
body-only term. -/
theorem moisturizer_matcher_sound (prod : Product) (msg : String) :
    (_matches_intent prod msg (some "moisturizer") = true →
      moist_positive.any (fun p => strContains (lowerStr msg) p) = true
      ∧ moist_positive.any (fun p => strContains (fullMeta prod) p) = true
      ∧ moist_form.any (fun f => strContains (fullMeta prod) f) = true)
    ∧ (moist_negative.any (fun n => strContains (fullMeta prod) n) = true →
      _matches_intent prod msg (some "moisturizer") = false) := by
  constructor
  · intro h
    unfold _matches_intent at h
    rw [if_pos rfl] at h
    by_cases hn : moist_negative.any (fun n => strContains (fullMeta prod) n) = true
    · rw [if_pos hn] at h
      exact absurd h (by simp)
    · rw [if_neg hn, Bool.and_eq_true, Bool.and_eq_true] at h
      exact ⟨h.1.1, h.1.2, h.2⟩
  · intro hn
    unfold _matches_intent
    rw [if_pos rfl, if_pos hn]

/-- C9 witness: a concrete accepted product satisfies all three
conditions, and a concrete body-lotion product is rejected. -/
theorem moisturizer_matcher_sound_witness :
    (moist_positive.any
        (fun p => strContains (lowerStr "یک مرطوب کننده میخوام") p) = true
      ∧ moist_positive.any (fun p => strContains (fullMeta pMoist) p) = true
      ∧ moist_form.any (fun f => strContains (fullMeta pMoist) f) = true)
    ∧ _matches_intent pBody "یک مرطوب کننده میخوام" (some "moisturizer") = false :=
  ⟨(moisturizer_matcher_sound pMoist "یک مرطوب کننده میخوام").1 (by decide),
   (moisturizer_matcher_sound pBody "یک مرطوب کننده میخوام").2 (by decide)⟩

/-- C8 (confirmed): any message whose normalized token sequence has one or
two tokens, all in the fixed greeting set, takes the greeting branch of
`recommend`: the returned log's `intent` is `greeting`. -/
theorem recommend_greeting_intent (env : Env) (profile msg : String) (mc : Nat)
    (h1 : 0 < (normGreetTokens msg).length)
    (h2 : (normGreetTokens msg).length ≤ 2)
    (h3 : ∀ t ∈ normGreetTokens msg, t ∈ greetings) :
    (recommend env profile msg mc).toOption.map (fun r => r.2.intent) =
      some (some "greeting") := by
  have hg : _is_greeting msg = true := by
    simp only [_is_greeting, Bool.and_eq_true, decide_eq_true_eq,
      List.all_eq_true]
    exact ⟨⟨h1, h2⟩, fun t ht => by simpa using h3 t ht⟩
  simp [recommend, hg, greetingRun, Except.toOption, greetingLog]

/-- C8 witness: the single-token message `سلام` is classified as a
greeting. -/
theorem recommend_greeting_intent_witness :
    (recommend env0 "" "سلام" 5).toOption.map (fun r => r.2.intent) =
      some (some "greeting") :=
  recommend_greeting_intent env0 "" "سلام" 5 (by decide) (by decide) (by decide)

/-- C1 counterexample: in the conversation branch a failure of the direct
completion call is re-raised to the caller of `recommend` (no apology
fallback, contradicting the claim's "never raises, always apology"). -/
theorem recommend_conversation_raises :
    recommend env0 "" "چطوری" 5 = .error () := rfl

/-- C1 (amended): when every completion tier fails or returns empty, the
product-intent branch returns normally with the fixed apology and
`llm_unavailable = true`; the greeting branch also returns normally, but
with an empty/None answer and no `llm_unavailable` key; the conversation
branch re-raises the direct call's failure to the caller. -/
theorem recommend_all_tiers_fail (env : Env) (profile msg : String) (mc : Nat)
    (hf : allTiersFail env) :
    (_is_greeting msg = false → _is_product_intent msg = true →
      (recommend env profile msg mc).toOption.map
        (fun r => (r.1, r.2.llm_unavailable)) = some (some apologyText, some true))
    ∧ (_is_greeting msg = true →
      (recommend env profile msg mc).toOption.map
        (fun r => (falsy r.1, r.2.llm_unavailable)) = some (true, none))
    ∧ (_is_greeting msg = false → _is_product_intent msg = false →
        env.tier2 = .error () → recommend env profile msg mc = .error ()) := by
  refine ⟨?_, ?_, ?_⟩
  · intro hG hP
    have hc := productCascade_fail env hf
    simp [recommend, hG, hP, productRun, hc,
      postProduct_fixed env apologyText strip_apology, llmFlag_apology,
      productLogMk, Except.toOption]
  · intro hG
    have hfg := greetingCascade_falsy env hf.1 hf.2.1 hf.2.2.1
    have hpost := postGreetConv_falsy env (greetingCascade env) hfg
    simp [recommend, hG, greetingRun, greetingLog, Except.toOption, hpost]
  · intro hG hP h2
    have ht := falsy_tier1 env hf.1
    simp [recommend, hG, hP, conversationRun, ht, h2]

/-- C1 witness: concrete all-tiers-failing calls in the product and
greeting branches. -/
theorem recommend_all_tiers_fail_witness :
    (recommend env0 "" "کرم" 5).toOption.map
      (fun r => (r.1, r.2.llm_unavailable)) = some (some apologyText, some true)
    ∧ (recommend env0 "" "سلام" 5).toOption.map
        (fun r => (falsy r.1, r.2.llm_unavailable)) = some (true, none) := by
  have hf : allTiersFail env0 := ⟨Or.inl rfl, Or.inl rfl, Or.inl rfl, Or.inl rfl⟩
  exact ⟨(recommend_all_tiers_fail env0 "" "کرم" 5 hf).1 (by decide) (by decide),
    (recommend_all_tiers_fail env0 "" "سلام" 5 hf).2.1 (by decide)⟩

/-- C2 counterexample: a greeting call returns a log whose `priority_used`
is `0` — outside the claimed `{1, 2, 3, null}` — and which has no
`llm_unavailable` key. -/
theorem greeting_log_priority_zero :
    (recommend envG "" "سلام" 5).toOption.map
      (fun r => (r.2.priority_used, r.2.llm_unavailable)) = some (some 0, none)
    ∧ ((some 0 : Option Nat) ≠ none ∧ (some 0 : Option Nat) ≠ some 1 ∧
        (some 0 : Option Nat) ≠ some 2 ∧ (some 0 : Option Nat) ≠ some 3) :=
  ⟨by decide, by decide⟩

/-- C2 (amended): the log's shape is per-branch — the greeting log has
`intent = greeting`, `priority_used = 0` and no `llm_unavailable` key; the
conversation log has `intent = conversation`, `priority_used = null` and
no `llm_unavailable` key; the product log has no `intent` key, always
carries `llm_unavailable`, and its `priority_used` lies in `{1, 2, 3}`. -/
theorem recommend_log_shape (env : Env) (profile msg : String) (mc : Nat) :
    (_is_greeting msg = true →
      (recommend env profile msg mc).toOption.map
        (fun r => (r.2.intent, r.2.priority_used, r.2.llm_unavailable)) =
        some (some "greeting", some 0, none))
    ∧ (_is_greeting msg = false → _is_product_intent msg = false →
      ∀ r, recommend env profile msg mc = .ok r →
        r.2.intent = some "conversation" ∧ r.2.priority_used = none ∧
          r.2.llm_unavailable = none)
    ∧ (_is_greeting msg = false → _is_product_intent msg = true →
      (recommend env profile msg mc).toOption.map
        (fun r => (r.2.intent, r.2.llm_unavailable.isSome)) = some (none, true)
      ∧ ∀ r, recommend env profile msg mc = .ok r →
          (r.2.priority_used = some 1 ∨ r.2.priority_used = some 2 ∨
            r.2.priority_used = some 3)) := by
  refine ⟨?_, ?_, ?_⟩
  · intro hG
    simp [recommend, hG, greetingRun, greetingLog, Except.toOption]
  · intro hG hP r hr
    simp only [recommend, hG, hP, if_false, Bool.false_eq_true] at hr
    unfold conversationRun at hr
    cases hft : falsy (tier1Answer env)
    · simp only [hft, Bool.false_eq_true, if_false] at hr
      obtain rfl := (Except.ok.inj hr).symm
      simp [conversationLog]
    · simp only [hft, if_true] at hr
      cases h2 : env.tier2 with
      | error e =>
        rw [h2] at hr
        simp at hr
      | ok s =>
        rw [h2] at hr
        obtain rfl := (Except.ok.inj hr).symm
        simp [conversationLog]
  · intro hG hP
    constructor
    · simp [recommend, hG, hP, productRun, productLogMk, Except.toOption]
    · intro r hr
      simp only [recommend, hG, hP, if_false, if_true, Bool.false_eq_true] at hr
      unfold productRun at hr
      obtain rfl := (Except.ok.inj hr).symm
      simp only [productLogMk, Option.some_inj]
      exact rankSelect_priority _ _

/-- C2 witness: the greeting log shape at a concrete call. -/
theorem recommend_log_shape_witness :
    (recommend envG "" "سلام" 5).toOption.map
      (fun r => (r.2.intent, r.2.priority_used, r.2.llm_unavailable)) =
      some (some "greeting", some 0, none) :=
  (recommend_log_shape envG "" "سلام" 5).1 (by decide)

/-- C6 counterexample: tiers 1 and 2 fail, the raw HTTP fallback returns a
non-empty text, yet `llm_unavailable` is `true` because the text happens to
start with the apology prefix — contradicting the claimed
`llm_unavailable = false`. -/
theorem product_tier3_flag_cex :
    envX.tier3 = .ok "متأسفانه سرویس پشتیبانی تعطیل است"
    ∧ "متأسفانه سرویس پشتیبانی تعطیل است" ≠ ""
    ∧ (recommend envX "" "کرم" 5).toOption.map
        (fun r => (r.1, r.2.llm_unavailable)) =
        some (some "متأسفانه سرویس پشتیبانی تعطیل است", some true) :=
  ⟨rfl, by decide, by decide⟩

/-- C6 (amended): in a product-intent call, if tier 1 fails (or is empty)
and tier 2 raises while the raw HTTP fallback returns non-empty text that
does not start with the apology prefix and is untouched by the greeting
stripper, the answer equals that text and `llm_unavailable = false`; if
all three tiers fail or return empty, the answer is the fixed apology and
`llm_unavailable = true`. -/
theorem product_tier3_behaviour (env : Env) (profile msg : String) (mc : Nat)
    (hG : _is_greeting msg = false) (hP : _is_product_intent msg = true) :
    (∀ s : String, tierFailed env.tier1 → env.tier2 = .error () →
      env.hasBaseUrl = true → env.tier3 = .ok s → s ≠ "" →
      sStartsWithB s apologyPrefix = false → _strip_redundant_greeting s = s →
      (recommend env profile msg mc).toOption.map
        (fun r => (r.1, r.2.llm_unavailable)) = some (some s, some false))
    ∧ (allTiersFail env →
      (recommend env profile msg mc).toOption.map
        (fun r => (r.1, r.2.llm_unavailable)) =
        some (some apologyText, some true)) := by
  constructor
  · intro s h1 h2 hB h3 hs hpre hstrip
    have hc := productCascade_tier3 env s h1 h2 hB h3 hs
    have hflag := llmFlag_of_ok hs hpre
    simp [recommend, hG, hP, productRun, hc, postProduct_fixed env s hstrip,
      hflag, productLogMk, Except.toOption]
  · intro hf
    have hc := productCascade_fail env hf
    simp [recommend, hG, hP, productRun, hc,
      postProduct_fixed env apologyText strip_apology, llmFlag_apology,
      productLogMk, Except.toOption]

/-- C6 witness: a concrete tier-3-succeeds call and a concrete
all-tiers-fail call. -/
theorem product_tier3_behaviour_witness :
    (recommend envW "" "کرم" 5).toOption.map
      (fun r => (r.1, r.2.llm_unavailable)) = some (some "باشد", some false)
    ∧ (recommend env0 "" "ماسک" 5).toOption.map
        (fun r => (r.1, r.2.llm_unavailable)) =
        some (some apologyText, some true) :=
  ⟨(product_tier3_behaviour envW "" "کرم" 5 (by decide) (by decide)).1 "باشد"
      (Or.inl rfl) rfl rfl rfl (by decide) (by decide) (by decide),
   (product_tier3_behaviour env0 "" "ماسک" 5 (by decide) (by decide)).2
      ⟨Or.inl rfl, Or.inl rfl, Or.inl rfl, Or.inl rfl⟩⟩
